import Mathlib

/-!
Verification of the wintun `Session` core (src/src/session.rs) against its
specification. The Rust code is shallowly embedded: each driver/OS call site
is a parameter of the embedded function (the response the call would have
produced), machine integers become `Nat`, and the control flow of the Rust
source is mirrored statement by statement.
-/

namespace WintunProof

/-! ## OS and driver constants, from windows-sys as imported by session.rs -/

/-- Windows error code ERROR_NO_MORE_ITEMS (0x103), the driver's designated
empty-receive-queue signal checked in `Session::try_receive`. -/
def ERROR_NO_MORE_ITEMS : Nat := 259

/-- Windows WAIT_OBJECT_0 (index 0 of the submitted handle array). -/
def WAIT_OBJECT_0 : Nat := 0

/-- Windows WAIT_OBJECT_0 + 1, named WAIT_OBJECT_1 in session.rs. -/
def WAIT_OBJECT_1 : Nat := 1

/-- Windows WAIT_FAILED (0xFFFFFFFF as a u32). -/
def WAIT_FAILED : Nat := 4294967295

/-- u16::MAX, the largest representable packet size. -/
def U16_MAX : Nat := 65535

/-! ## Error taxonomy

Modelled from the spec: the crate's `Error` type lives outside src/ (only
session.rs is given). The spec lists the kinds `ShuttingDown` plus a
pass-through `OsError(code)` for translated OS failures; only these two are
reachable from the session.rs code paths under study. -/

/-- Error values surfaced by the session operations: the designed shutdown
signal, or a translated OS error carrying the raw code. -/
inductive Error where
  | shuttingDown : Error
  | os (code : Nat) : Error
deriving DecidableEq, Repr

/-- Modelled from the spec: `util::get_last_error` is not under src/; per the
spec's error-handling design it translates the OS last-error code into the
typed error taxonomy, which we model as the pass-through `Error.os code`. -/
def get_last_error (code : Nat) : Error := Error.os code

/-! ## Packet model, from packet::Packet / packet::Kind as used by session.rs -/

/-- Lifecycle tag of a packet (packet::Kind): variants as constructed and
matched in session.rs. -/
inductive Kind where
  | sendPacketPending : Kind
  | sendPacketSent : Kind
  | receivePacket : Kind
deriving DecidableEq, Repr

/-- A packet as observable through session.rs: its lifecycle tag and the
length of the byte span `slice::from_raw_parts_mut(ptr, len)` wraps. The
span's base pointer and the `Arc<Session>` back-reference carry no further
observable structure here; the strong-count effect of the latter is modelled
where it occurs (`allocate_send_packet`). -/
structure Packet where
  kind : Kind
  bytesLen : Nat
deriving DecidableEq, Repr

/-! ## Driver call responses

Each embedded function takes the response of the raw driver call it wraps. -/

/-- Response of one `WintunReceivePacket` call: whether the returned buffer
pointer was null, the size the driver wrote through the out-parameter (a u32),
and the thread's OS last-error code observed right after the call. -/
structure RecvResult where
  ptrNull : Bool
  size : Nat
  lastError : Nat
deriving DecidableEq, Repr

/-- Response of one `WintunAllocateSendPacket` call: whether the returned
buffer pointer was null, and the OS last-error code observed after the call. -/
structure AllocResult where
  ptrNull : Bool
  lastError : Nat
deriving DecidableEq, Repr

/-- Outcome of `Session::try_receive`: an aborted run (a failed assertion),
a returned error, `Ok(None)` (empty queue), or `Ok(Some(packet))`. -/
inductive TryOut where
  | aborted : TryOut
  | failed (e : Error) : TryOut
  | empty : TryOut
  | got (p : Packet) : TryOut
deriving DecidableEq, Repr

/-- Session::try_receive (session.rs lines 75-96). `debug` is the build's
debug-assertions flag: the source's `debug_assert!(size <= u16::MAX as u32)`
is active exactly when it is set. Then: a null buffer with last error
ERROR_NO_MORE_ITEMS is the empty queue, any other null-buffer error is
translated and returned, and a non-null buffer is wrapped as a packet in
`ReceivePacket` state of span length `size`. The function is total: it never
blocks. -/
def try_receive (debug : Bool) (r : RecvResult) : TryOut :=
  if debug ∧ U16_MAX < r.size then .aborted
  else if r.ptrNull then
    if r.lastError = ERROR_NO_MORE_ITEMS then .empty
    else .failed (Error.os r.lastError)
  else .got ⟨Kind.receivePacket, r.size⟩

/-- Session::allocate_send_packet (session.rs lines 47-60). `size` is the u16
argument (so `size ≤ 65535` at every Rust call site), `rc` the strong count of
the `Arc<Session>` before the call. A null buffer pointer returns the
translated last error; otherwise the span of exactly `size` bytes is wrapped
as a `SendPacketPending` packet and `self.clone()` takes a new strong
reference, giving strong count `rc + 1`. -/
def allocate_send_packet (size : Nat) (rc : Nat) (a : AllocResult) :
    Except Error (Packet × Nat) :=
  if a.ptrNull then .error (get_last_error a.lastError)
  else .ok (⟨Kind.sendPacketPending, size⟩, rc + 1)

/-- Outcome of `Session::send_packet`: either the assertion
`assert!(matches!(packet.kind, Kind::SendPacketPending))` failed and the
program aborted, or the packet was submitted (the driver call returns no
value) and its tag moved to `SendPacketSent`. There is no error outcome:
the Rust function returns `()`. -/
inductive SendOutcome where
  | abortedSend : SendOutcome
  | sent (p : Packet) : SendOutcome
deriving DecidableEq, Repr

/-- Session::send_packet (session.rs lines 63-70): assert the packet is in
`SendPacketPending` state (abort otherwise), submit the buffer via
`WintunSendPacket` (no return value, no failure channel), and mark the packet
as sent. -/
def send_packet (p : Packet) : SendOutcome :=
  match p.kind with
  | Kind.sendPacketPending => .sent { p with kind := Kind.sendPacketSent }
  | _ => .abortedSend

/-! ## receive_blocking over call-response traces

`Session::receive_blocking` (session.rs lines 112-150) is a loop around
driver/OS calls. We embed it as a function of the traces of responses those
calls produce: `recvs` holds the response of each successive
`WintunReceivePacket` call, `waits` the `(return value, last error)` of each
successive `WaitForMultipleObjects` call. The function also counts how many
receive calls and how many wait calls it consumed, so that claims about the
poll discipline are statements about the function. -/

/-- Outcome of one burst of up to `n` non-blocking polls (the
`for _ in 0..5` loop): a packet was found, an error was returned, an
assertion aborted, all `n` polls reported an empty queue, or the response
trace ran out mid-burst. -/
inductive PollOut where
  | foundP (p : Packet) : PollOut
  | errP (e : Error) : PollOut
  | abortP : PollOut
  | noneAll : PollOut
  | traceEnd : PollOut
deriving DecidableEq, Repr

/-- The inner `for _ in 0..5` loop of receive_blocking: poll `try_receive` up
to `n` times, stopping early on a packet, an error or an abort. Returns the
loop's outcome, the unconsumed tail of the receive trace, and the number of
polls performed. -/
def pollBurst (debug : Bool) : Nat → List RecvResult → PollOut × List RecvResult × Nat
  | 0, rs => (.noneAll, rs, 0)
  | _ + 1, [] => (.traceEnd, [], 0)
  | n + 1, r :: rs =>
    match try_receive debug r with
    | .aborted => (.abortP, rs, 1)
    | .failed e => (.errP e, rs, 1)
    | .got p => (.foundP p, rs, 1)
    | .empty =>
      match pollBurst debug n rs with
      | (o, rs', k) => (o, rs', k + 1)

/-- Outcome of a receive_blocking run: a packet, an error (`Err` in Rust), an
abort (the defensive `panic!` arm or a failed debug assertion), or the end of
the supplied response trace while the loop was still running. -/
inductive BlockOutcome where
  | packetOut (p : Packet) : BlockOutcome
  | errOut (e : Error) : BlockOutcome
  | abortOut : BlockOutcome
  | traceOut : BlockOutcome
deriving DecidableEq, Repr

/-- The outer `loop` of receive_blocking, structurally recursive on the wait
trace: one poll burst of 5, then — only if all five polls reported an empty
queue — one dual wait on `[read_event, shutdown_event]`, dispatched exactly
as the source's match: WAIT_FAILED returns the translated last error,
WAIT_OBJECT_0 (the read event, index 0) continues the loop, WAIT_OBJECT_1
(the shutdown event, index 1) returns `Error::ShuttingDown`, and anything
else hits the defensive `panic!`. Returns the outcome together with the
number of `try_receive` calls and of wait calls consumed. -/
def receiveLoop (debug : Bool) : List (Nat × Nat) → List RecvResult → BlockOutcome × Nat × Nat
  | waits, recvs =>
    match pollBurst debug 5 recvs with
    | (.foundP p, _, k) => (.packetOut p, k, 0)
    | (.errP e, _, k) => (.errOut e, k, 0)
    | (.abortP, _, k) => (.abortOut, k, 0)
    | (.traceEnd, _, k) => (.traceOut, k, 0)
    | (.noneAll, rest, k) =>
      match waits with
      | [] => (.traceOut, k, 0)
      | (v, e) :: ws =>
        if v = WAIT_FAILED then (.errOut (get_last_error e), k, 1)
        else if v = WAIT_OBJECT_0 then
          match receiveLoop debug ws rest with
          | (o, k2, w2) => (o, k + k2, 1 + w2)
        else if v = WAIT_OBJECT_1 then (.errOut Error.shuttingDown, k, 1)
        else (.abortOut, k, 1)

/-- Session::receive_blocking (session.rs lines 112-150) over the given
receive-call and wait-call response traces. -/
def receive_blocking (debug : Bool) (recvs : List RecvResult)
    (waits : List (Nat × Nat)) : BlockOutcome × Nat × Nat :=
  receiveLoop debug waits recvs

/-! ## receive_blocking over a driver/OS world

To settle claims that relate `shutdown` to the behaviour of the dual wait we
also run the same control flow against a small model of the driver and the
two event objects, instead of a raw response trace. -/

/-- State of the driver and the two event objects visible to one session:
the inbound queue (sizes of queued packets), whether the driver's read-ready
event object is signaled, and whether the session's private shutdown event is
signaled. The two signals are independent of the queue: the spec notes the
read-ready signal may fire with no packet actually ready, and the shutdown
event is set only by `shutdown()`. Modelled from the spec: the shutdown event
is created by session-start code that is not under src/; per the spec the
signal remains set once set (a manual-reset event), so waiting on it does not
consume it. -/
structure World where
  queue : List Nat
  readSignal : Bool
  shutdownSignal : Bool
deriving DecidableEq, Repr

/-- One `WintunReceivePacket` call against the world: an empty queue yields a
null buffer with last error ERROR_NO_MORE_ITEMS (the driver's documented
empty signal); otherwise the head packet is popped and returned with its
size. -/
def worldRecv (w : World) : RecvResult × World :=
  match w.queue with
  | [] => (⟨true, 0, ERROR_NO_MORE_ITEMS⟩, w)
  | s :: rest => (⟨false, s, 0⟩, { w with queue := rest })

/-- WaitForMultipleObjects over the handle array `[read_event,
shutdown_event]` with bWaitAll = FALSE and an INFINITE timeout, per its
documented contract: if at least one object is signaled it returns
WAIT_OBJECT_0 plus the SMALLEST signaled index — so the read event, at index
0, wins whenever it is signaled, even if the shutdown event is signaled too —
and if neither is signaled the call blocks forever (`none`). Signals are not
consumed (manual-reset semantics, see `World`). -/
def waitTwo (w : World) : Option Nat :=
  if w.readSignal then some WAIT_OBJECT_0
  else if w.shutdownSignal then some WAIT_OBJECT_1
  else none

/-- Outcome of a receive_blocking run against a `World`: a packet, an error,
an abort, a wait that blocks forever (neither event signaled), or fuel
exhaustion while the loop keeps spinning. -/
inductive WOutcome where
  | packetW (p : Packet) : WOutcome
  | errW (e : Error) : WOutcome
  | abortW : WOutcome
  | blockedW : WOutcome
  | spinW : WOutcome
deriving DecidableEq, Repr

/-- The inner poll burst of receive_blocking run against the world: up to `n`
`try_receive` calls, each consuming one `worldRecv` response. -/
def worldBurst (debug : Bool) : Nat → World → PollOut × World
  | 0, w => (.noneAll, w)
  | n + 1, w =>
    match worldRecv w with
    | (r, w') =>
      match try_receive debug r with
      | .aborted => (.abortP, w')
      | .failed e => (.errP e, w')
      | .got p => (.foundP p, w')
      | .empty => worldBurst debug n w'

/-- Session::receive_blocking run against a `World`: burst of 5 polls, then
the dual wait via `waitTwo`; a WAIT_OBJECT_0 result loops back (consuming one
unit of fuel), a WAIT_OBJECT_1 result returns `Error::ShuttingDown`. The
`traceEnd` burst outcome cannot occur here (the world always answers), and
the final catch-all mirrors the source's defensive `panic!` arm. -/
def worldRun (debug : Bool) : Nat → World → WOutcome
  | fuel, w =>
    match worldBurst debug 5 w with
    | (.foundP p, _) => .packetW p
    | (.errP e, _) => .errW e
    | (.abortP, _) => .abortW
    | (.traceEnd, _) => .spinW
    | (.noneAll, w') =>
      match waitTwo w' with
      | none => .blockedW
      | some v =>
        if v = WAIT_OBJECT_0 then
          match fuel with
          | 0 => .spinW
          | fuel' + 1 => worldRun debug fuel' w'
        else if v = WAIT_OBJECT_1 then .errW Error.shuttingDown
        else .abortW

/-! ## Session state, shutdown and Drop -/

/-- Observable state of a `Session` for the shutdown/destruction claims: the
raw session handle value (0 standing for the null poison sentinel), the
lazily cached read-ready event handle (`OnceLock`), whether that cached
handle has been closed, the shutdown event handle value, whether it has been
closed, whether the shutdown event object is signaled, the adapter reference,
whether the driver was told to end the session, and whether a destruction-time
close failure was logged. -/
structure SessionSt where
  sessionHandle : Nat
  readEvent : Option Nat
  readEventClosed : Bool
  shutdownEventHandle : Nat
  shutdownEventClosed : Bool
  shutdownSignaled : Bool
  adapterRef : Nat
  sessionEnded : Bool
  dropLogged : Bool
deriving DecidableEq, Repr

/-- Session::shutdown (session.rs lines 153-158): one `SetEvent` on the
shutdown event. `setEventOk` is that call's success (SetEvent on a valid
event object succeeds, signaled or not); on failure the translated last error
is returned and nothing changes, on success the shutdown event becomes
signaled and nothing else changes. -/
def shutdown (s : SessionSt) (setEventOk : Bool) (lastError : Nat) :
    Except Error Unit × SessionSt :=
  if setEventOk then (.ok (), { s with shutdownSignaled := true })
  else (.error (get_last_error lastError), s)

/-- impl Drop for Session (session.rs lines 161-171): `CloseHandle` on the
shutdown event — on failure the error is only logged (`closeOk` is that
call's success) — then `WintunEndSession`, then the session handle is set to
the null sentinel. The cached read-ready event is never touched. The function
is total with no error channel: destruction cannot fail. -/
def dropSession (s : SessionSt) (closeOk : Bool) : SessionSt :=
  let s1 := if closeOk then { s with shutdownEventClosed := true }
            else { s with dropLogged := true }
  { s1 with sessionEnded := true, sessionHandle := 0 }

/-! ## Theorems -/

/-- C2 counterexample. The claim as stated is false on the code: the only
receive-side size check in the source is the debug assertion at
session.rs:81, which is compiled out when debug assertions are off (the
standard release configuration). There, a non-null buffer whose reported
size is 70000 is wrapped with no validation and handed to the application as
a packet of span length 70000 > 65535. -/
theorem try_receive_release_unchecked_counterexample :
    try_receive false ⟨false, 70000, 0⟩ = TryOut.got ⟨Kind.receivePacket, 70000⟩
    ∧ ¬(Packet.mk Kind.receivePacket 70000).bytesLen ≤ U16_MAX := by
  refine ⟨rfl, ?_⟩
  decide

/-- C2 (amended). A packet returned by `allocate_send_packet` has span length
exactly the u16 `size` argument, hence at most u16::MAX; for `try_receive`
the driver-reported size is checked against u16::MAX only by a debug
assertion, so in builds with debug assertions enabled every packet it
returns has span length at most u16::MAX — while in release builds the size
is wrapped unvalidated (see the counterexample). -/
theorem packet_len_le_u16max :
    (∀ (r : RecvResult) (p : Packet),
      try_receive true r = TryOut.got p → p.bytesLen ≤ U16_MAX)
    ∧ (∀ (size rc : Nat) (a : AllocResult) (p : Packet) (rc' : Nat),
      size ≤ U16_MAX → allocate_send_packet size rc a = .ok (p, rc') →
      p.bytesLen = size ∧ p.bytesLen ≤ U16_MAX) := by
  constructor
  · intro r p h
    unfold try_receive at h
    by_cases hs : U16_MAX < r.size
    · simp [hs] at h
    · simp only [hs, and_false, if_false] at h
      by_cases hp : r.ptrNull
      · by_cases hl : r.lastError = ERROR_NO_MORE_ITEMS <;> simp [hp, hl] at h
      · simp only [hp, if_false] at h
        cases h
        exact Nat.not_lt.mp hs
  · intro size rc a p rc' hsz h
    unfold allocate_send_packet at h
    by_cases hp : a.ptrNull
    · simp [hp] at h
    · rw [if_neg hp] at h
      injection h with h2
      injection h2 with h3 h4
      subst h3
      exact ⟨rfl, hsz⟩

/-- Witness for C2: a concrete receive of 10 bytes is within bound. -/
theorem packet_len_le_u16max_witness :
    (Packet.mk Kind.receivePacket 10).bytesLen ≤ U16_MAX :=
  packet_len_le_u16max.1 ⟨false, 10, 0⟩ ⟨Kind.receivePacket, 10⟩ (by decide)

/-- C4. Classification of `try_receive` (which is a total function: it never
blocks): it returns `Ok(None)` exactly when the driver returned a null buffer
and the last-error code is ERROR_NO_MORE_ITEMS; a null buffer with any other
code yields the translated OS error; a non-null buffer yields a packet in
`ReceivePacket` state wrapping the reported size. The hypothesis discharges
the debug-only size assertion, which sits before the null check. -/
theorem try_receive_classification (debug : Bool) (r : RecvResult)
    (h : debug = false ∨ r.size ≤ U16_MAX) :
    (try_receive debug r = TryOut.empty ↔
      (r.ptrNull = true ∧ r.lastError = ERROR_NO_MORE_ITEMS))
    ∧ (r.ptrNull = true → r.lastError ≠ ERROR_NO_MORE_ITEMS →
        try_receive debug r = TryOut.failed (Error.os r.lastError))
    ∧ (r.ptrNull = false →
        try_receive debug r = TryOut.got ⟨Kind.receivePacket, r.size⟩) := by
  have hnd : ¬(debug = true ∧ U16_MAX < r.size) := by
    rcases h with h | h
    · simp [h]
    · exact fun hc => absurd hc.2 (Nat.not_lt.mpr h)
  unfold try_receive
  rw [if_neg hnd]
  by_cases hp : r.ptrNull
  · by_cases hl : r.lastError = ERROR_NO_MORE_ITEMS <;> simp [hp, hl]
  · simp [hp]

/-- Witness for C4: a null buffer with ERROR_NO_MORE_ITEMS is the empty
queue. -/
theorem try_receive_classification_witness :
    try_receive false ⟨true, 0, 259⟩ = TryOut.empty :=
  (try_receive_classification false ⟨true, 0, 259⟩ (Or.inl rfl)).1.mpr ⟨rfl, rfl⟩

/-- C5. `allocate_send_packet` errors exactly when the driver returned a null
buffer pointer, in which case the translated last error is carried; on a
non-null buffer it returns a packet in `SendPacketPending` state of span
length exactly `size`, together with a new strong reference on the session
(strong count `rc + 1`). -/
theorem allocate_send_packet_spec (size rc : Nat) (a : AllocResult) :
    ((∃ e, allocate_send_packet size rc a = .error e) ↔ a.ptrNull = true)
    ∧ (a.ptrNull = true →
        allocate_send_packet size rc a = .error (Error.os a.lastError))
    ∧ (a.ptrNull = false →
        allocate_send_packet size rc a =
          .ok (⟨Kind.sendPacketPending, size⟩, rc + 1)) := by
  by_cases hp : a.ptrNull <;> simp [allocate_send_packet, get_last_error, hp]

/-- Witness for C5: a successful allocation of 4 bytes at strong count 1. -/
theorem allocate_send_packet_spec_witness :
    allocate_send_packet 4 1 ⟨false, 0⟩ =
      .ok (⟨Kind.sendPacketPending, 4⟩, 2) :=
  (allocate_send_packet_spec 4 1 ⟨false, 0⟩).2.2 rfl

/-- C6. `send_packet` aborts (assertion failure, not a returned error)
exactly when the packet is not in `SendPacketPending` state; on a pending
packet it submits the buffer and transitions the packet to `SendPacketSent`.
The third conjunct records that these are the only outcomes: the function has
no error channel, so a send failure is never surfaced. -/
theorem send_packet_spec (p : Packet) :
    (send_packet p = SendOutcome.abortedSend ↔ p.kind ≠ Kind.sendPacketPending)
    ∧ (p.kind = Kind.sendPacketPending →
        send_packet p = SendOutcome.sent ⟨Kind.sendPacketSent, p.bytesLen⟩)
    ∧ (send_packet p = SendOutcome.abortedSend ∨
        send_packet p = SendOutcome.sent ⟨Kind.sendPacketSent, p.bytesLen⟩) := by
  obtain ⟨k, n⟩ := p
  cases k <;> simp [send_packet]

/-- Witness for C6: sending a concrete pending packet marks it sent. -/
theorem send_packet_spec_witness :
    send_packet ⟨Kind.sendPacketPending, 7⟩ =
      SendOutcome.sent ⟨Kind.sendPacketSent, 7⟩ :=
  (send_packet_spec ⟨Kind.sendPacketPending, 7⟩).2.1 rfl

/-- C7. `shutdown` leaves every component of the session state other than the
shutdown signal unchanged (handle, cached read event, close flags, adapter
reference, end-of-session flag) and closes nothing; it returns `Ok` exactly
when the `SetEvent` call succeeds, returns the translated last error on
failure, sets the shutdown signal on success, and is idempotent: run again
after a success it succeeds and leaves the state unchanged. Outstanding
packets are not part of the session state and are untouched by type. -/
theorem shutdown_frame_spec (s : SessionSt) (ok : Bool) (e : Nat) :
    ((shutdown s ok e).2.sessionHandle = s.sessionHandle
      ∧ (shutdown s ok e).2.readEvent = s.readEvent
      ∧ (shutdown s ok e).2.readEventClosed = s.readEventClosed
      ∧ (shutdown s ok e).2.shutdownEventHandle = s.shutdownEventHandle
      ∧ (shutdown s ok e).2.shutdownEventClosed = s.shutdownEventClosed
      ∧ (shutdown s ok e).2.adapterRef = s.adapterRef
      ∧ (shutdown s ok e).2.sessionEnded = s.sessionEnded
      ∧ (shutdown s ok e).2.dropLogged = s.dropLogged)
    ∧ ((shutdown s ok e).1 = Except.ok () ↔ ok = true)
    ∧ (ok = false → (shutdown s ok e).1 = Except.error (Error.os e))
    ∧ (ok = true → (shutdown s ok e).2.shutdownSignaled = true)
    ∧ (s.shutdownSignaled = true → ok = true → shutdown s ok e = (Except.ok (), s)) := by
  cases ok <;>
    obtain ⟨h1, h2, h3, h4, h5, h6, h7, h8, h9⟩ := s <;>
    simp [shutdown, get_last_error]

/-- Witness for C7: a concrete successful shutdown returns Ok. -/
theorem shutdown_frame_spec_witness :
    (shutdown ⟨1, none, false, 2, false, false, 3, false, false⟩ true 0).1 =
      Except.ok () :=
  (shutdown_frame_spec ⟨1, none, false, 2, false, false, 3, false, false⟩ true 0).2.1.mpr rfl

/-- C8. Destruction (`Drop`): the session handle is poisoned to the null
sentinel, the driver is told to end the session, the cached read-ready event
is never closed (cache and its close flag unchanged); when the `CloseHandle`
call succeeds the shutdown event handle is marked closed, and when it fails
the failure is only logged and the close flag is unchanged. The function is
total with no error channel, so destruction itself never fails. -/
theorem dropSession_spec (s : SessionSt) (closeOk : Bool) :
    (dropSession s closeOk).sessionHandle = 0
    ∧ (dropSession s closeOk).sessionEnded = true
    ∧ (dropSession s closeOk).readEvent = s.readEvent
    ∧ (dropSession s closeOk).readEventClosed = s.readEventClosed
    ∧ (closeOk = true → (dropSession s closeOk).shutdownEventClosed = true ∧
        (dropSession s closeOk).dropLogged = s.dropLogged)
    ∧ (closeOk = false → (dropSession s closeOk).dropLogged = true ∧
        (dropSession s closeOk).shutdownEventClosed = s.shutdownEventClosed) := by
  cases closeOk <;> simp [dropSession]

/-- Witness for C8: destroying a concrete session closes the shutdown event. -/
theorem dropSession_spec_witness :
    (dropSession ⟨5, some 9, false, 2, false, true, 3, false, false⟩ true).shutdownEventClosed = true :=
  ((dropSession_spec ⟨5, some 9, false, 2, false, true, 3, false, false⟩ true).2.2.2.2.1 rfl).1

/-! ## Poll-burst lemmas (shared helpers) -/

/-- A burst over exactly the empty-reporting prefix consumes it whole and
reports `noneAll`. -/
lemma pollBurst_all_empty (debug : Bool) :
    ∀ (pre rest : List RecvResult),
      (∀ r ∈ pre, try_receive debug r = TryOut.empty) →
      pollBurst debug pre.length (pre ++ rest) = (PollOut.noneAll, rest, pre.length) := by
  intro pre
  induction pre with
  | nil => intro rest _; simp [pollBurst]
  | cons a pre ih =>
    intro rest h
    have ha : try_receive debug a = TryOut.empty := h a (by simp)
    have h' : ∀ r ∈ pre, try_receive debug r = TryOut.empty :=
      fun r hr => h r (by simp [hr])
    simp only [List.length_cons, List.cons_append, pollBurst, List.append_eq, ha]
    rw [ih rest h']

/-- A burst that meets a packet after a strictly shorter empty prefix stops
there with the packet, having consumed one poll per prefix element plus one. -/
lemma pollBurst_first_got (debug : Bool) :
    ∀ (pre : List RecvResult) (n : Nat) (r : RecvResult) (p : Packet)
      (rest : List RecvResult),
      (∀ x ∈ pre, try_receive debug x = TryOut.empty) → pre.length < n →
      try_receive debug r = TryOut.got p →
      pollBurst debug n (pre ++ r :: rest) = (PollOut.foundP p, rest, pre.length + 1) := by
  intro pre
  induction pre with
  | nil =>
    intro n r p rest _ hn hr
    cases n with
    | zero => omega
    | succ m => simp [pollBurst, hr]
  | cons a pre ih =>
    intro n r p rest h hn hr
    cases n with
    | zero => omega
    | succ m =>
      have ha : try_receive debug a = TryOut.empty := h a (by simp)
      have h' : ∀ x ∈ pre, try_receive debug x = TryOut.empty :=
        fun x hx => h x (by simp [hx])
      have hm : pre.length < m := by simpa using hn
      simp only [List.cons_append, pollBurst, List.append_eq, ha, List.length_cons]
      rw [ih m r p rest h' hm]
      exact hr

/-- A burst that meets an erroring poll after a strictly shorter empty prefix
stops there with the error. -/
lemma pollBurst_first_failed (debug : Bool) :
    ∀ (pre : List RecvResult) (n : Nat) (r : RecvResult) (e : Error)
      (rest : List RecvResult),
      (∀ x ∈ pre, try_receive debug x = TryOut.empty) → pre.length < n →
      try_receive debug r = TryOut.failed e →
      pollBurst debug n (pre ++ r :: rest) = (PollOut.errP e, rest, pre.length + 1) := by
  intro pre
  induction pre with
  | nil =>
    intro n r e rest _ hn hr
    cases n with
    | zero => omega
    | succ m => simp [pollBurst, hr]
  | cons a pre ih =>
    intro n r e rest h hn hr
    cases n with
    | zero => omega
    | succ m =>
      have ha : try_receive debug a = TryOut.empty := h a (by simp)
      have h' : ∀ x ∈ pre, try_receive debug x = TryOut.empty :=
        fun x hx => h x (by simp [hx])
      have hm : pre.length < m := by simpa using hn
      simp only [List.cons_append, pollBurst, List.append_eq, ha, List.length_cons]
      rw [ih m r e rest h' hm]
      exact hr

/-- C3. The poll discipline of `receive_blocking`. First conjunct: when the
first five polls all report an empty queue, the call performs the dual wait
(exactly 5 polls then one wait consumed), and when that wait reports
WAIT_OBJECT_0 — the read-ready event — the loop starts over by re-polling
`try_receive` on the remaining trace rather than assuming a packet is ready.
Second conjunct: a packet found at any of the first five polls is returned
with no wait call at all, whatever the wait trace holds. -/
theorem receive_blocking_poll_burst_spec :
    (∀ (debug : Bool) (pre rest : List RecvResult) (e : Nat) (ws : List (Nat × Nat)),
      pre.length = 5 → (∀ r ∈ pre, try_receive debug r = TryOut.empty) →
      receive_blocking debug (pre ++ rest) ((WAIT_OBJECT_0, e) :: ws) =
        ((receive_blocking debug rest ws).1,
          5 + (receive_blocking debug rest ws).2.1,
          1 + (receive_blocking debug rest ws).2.2))
    ∧ (∀ (debug : Bool) (pre : List RecvResult) (r : RecvResult) (p : Packet)
        (rest : List RecvResult) (ws : List (Nat × Nat)),
      pre.length < 5 → (∀ x ∈ pre, try_receive debug x = TryOut.empty) →
      try_receive debug r = TryOut.got p →
      receive_blocking debug (pre ++ r :: rest) ws =
        (BlockOutcome.packetOut p, pre.length + 1, 0)) := by
  constructor
  · intro debug pre rest e ws hlen hpre
    have hb := pollBurst_all_empty debug pre rest hpre
    rw [hlen] at hb
    rcases hq : receiveLoop debug ws rest with ⟨o, k2, w2⟩
    have hrw : receive_blocking debug rest ws = (o, k2, w2) := hq
    rw [hrw]
    unfold receive_blocking receiveLoop
    rw [hb]
    simp [WAIT_OBJECT_0, WAIT_FAILED, hq]
  · intro debug pre r p rest ws hlen hpre hr
    have hb := pollBurst_first_got debug pre 5 r p rest hpre hlen hr
    unfold receive_blocking receiveLoop
    rw [hb]

/-- Witness for C3: one immediate packet is returned after a single poll and
zero waits, on an empty wait trace. -/
theorem receive_blocking_poll_burst_spec_witness :
    receive_blocking false [⟨false, 42, 0⟩] [] =
      (BlockOutcome.packetOut ⟨Kind.receivePacket, 42⟩, 1, 0) :=
  receive_blocking_poll_burst_spec.2 false [] ⟨false, 42, 0⟩
    ⟨Kind.receivePacket, 42⟩ [] [] (by decide)
    (by intro x hx; simp at hx) (by decide)

/-- C9. The dual-wait dispatch: after five empty polls, a WAIT_FAILED result
returns the translated last error to the caller, and any result other than
WAIT_OBJECT_0, WAIT_OBJECT_1 and WAIT_FAILED hits the defensive abort (the
source's panic! arm) — never a silent continuation and never a recoverable
error. -/
theorem dual_wait_failure_spec (debug : Bool) (pre rest : List RecvResult)
    (e v : Nat) (ws : List (Nat × Nat))
    (hlen : pre.length = 5) (hpre : ∀ r ∈ pre, try_receive debug r = TryOut.empty) :
    receive_blocking debug (pre ++ rest) ((WAIT_FAILED, e) :: ws) =
      (BlockOutcome.errOut (Error.os e), 5, 1)
    ∧ (v ≠ WAIT_OBJECT_0 → v ≠ WAIT_OBJECT_1 → v ≠ WAIT_FAILED →
        receive_blocking debug (pre ++ rest) ((v, e) :: ws) =
          (BlockOutcome.abortOut, 5, 1)) := by
  have hb := pollBurst_all_empty debug pre rest hpre
  rw [hlen] at hb
  constructor
  · unfold receive_blocking receiveLoop
    rw [hb]
    simp [get_last_error]
  · intro h0 h1 hf
    unfold receive_blocking receiveLoop
    rw [hb]
    simp [h0, h1, hf]

/-- Witness for C9: with five concrete empty polls, a concrete failed wait
returns the translated error and a concrete unexpected wait value aborts. -/
theorem dual_wait_failure_spec_witness :
    receive_blocking false
        [⟨true, 0, 259⟩, ⟨true, 0, 259⟩, ⟨true, 0, 259⟩, ⟨true, 0, 259⟩, ⟨true, 0, 259⟩]
        [(WAIT_FAILED, 99)] = (BlockOutcome.errOut (Error.os 99), 5, 1)
    ∧ receive_blocking false
        [⟨true, 0, 259⟩, ⟨true, 0, 259⟩, ⟨true, 0, 259⟩, ⟨true, 0, 259⟩, ⟨true, 0, 259⟩]
        [(7, 99)] = (BlockOutcome.abortOut, 5, 1) := by
  have h := dual_wait_failure_spec false
    [⟨true, 0, 259⟩, ⟨true, 0, 259⟩, ⟨true, 0, 259⟩, ⟨true, 0, 259⟩, ⟨true, 0, 259⟩]
    [] 99 7 [] (by decide) (by decide)
  exact ⟨h.1, h.2 (by decide) (by decide) (by decide)⟩

/-- C10. If one of the up-to-five non-blocking polls inside
`receive_blocking` fails with an error, that error is returned at once: the
remaining polls of the burst are not performed (exactly `pre.length + 1 ≤ 5`
polls happen) and no wait call is ever made — the conclusion holds for every
wait trace, the empty one included. -/
theorem receive_blocking_poll_error_spec (debug : Bool) (pre : List RecvResult)
    (r : RecvResult) (e : Error) (rest : List RecvResult) (ws : List (Nat × Nat))
    (hlen : pre.length < 5) (hpre : ∀ x ∈ pre, try_receive debug x = TryOut.empty)
    (hr : try_receive debug r = TryOut.failed e) :
    receive_blocking debug (pre ++ r :: rest) ws =
      (BlockOutcome.errOut e, pre.length + 1, 0) := by
  have hb := pollBurst_first_failed debug pre 5 r e rest hpre hlen hr
  unfold receive_blocking receiveLoop
  rw [hb]

/-- Witness for C10: a first poll that fails with OS error 5 is returned
after one poll and zero waits. -/
theorem receive_blocking_poll_error_spec_witness :
    receive_blocking false [⟨true, 0, 5⟩] [] =
      (BlockOutcome.errOut (Error.os 5), 1, 0) :=
  receive_blocking_poll_error_spec false [] ⟨true, 0, 5⟩ (Error.os 5) [] []
    (by decide) (by intro x hx; simp at hx) (by decide)

/-! ## World-model lemmas and the shutdown claims -/

/-- With an empty driver queue every poll of a burst reports the empty queue
and the world is unchanged, whatever the two signals hold. -/
lemma worldBurst_empty_queue (debug : Bool) (rs ss : Bool) :
    ∀ n, worldBurst debug n ⟨[], rs, ss⟩ = (PollOut.noneAll, ⟨[], rs, ss⟩) := by
  intro n
  induction n with
  | zero => rfl
  | succ m ih =>
    have ht : try_receive debug ⟨true, 0, ERROR_NO_MORE_ITEMS⟩ = TryOut.empty := by
      unfold try_receive
      have : ¬(debug = true ∧ U16_MAX < (0 : Nat)) := fun hc => Nat.not_lt_zero _ hc.2
      rw [if_neg this]
      simp
    simp only [worldBurst, worldRecv, ht, ih]

/-- C1 counterexample. The claim fails on the code in both of its parts, at
concrete inputs of the driver/OS world model. First: with the shutdown event
already signaled but one 100-byte packet still queued (and the read-ready
event signaled accordingly), `receive_blocking` returns that packet, not
`ShuttingDown` — so not every call after a successful `shutdown()` returns
`ShuttingDown`. Second: with the queue empty but both the read-ready and the
shutdown events signaled at once, the dual wait reports WAIT_OBJECT_0 — the
read event sits at index 0 of the handle array and
`WaitForMultipleObjects` returns the smallest signaled index — so the loop
re-polls and waits again indefinitely (`spinW` for every amount of fuel, 3
shown here) instead of returning `ShuttingDown`: shutdown does not win the
race. -/
theorem shutdown_race_counterexample :
    worldRun true 5 ⟨[100], true, true⟩ = WOutcome.packetW ⟨Kind.receivePacket, 100⟩
    ∧ worldRun true 3 ⟨[], true, true⟩ = WOutcome.spinW
    ∧ WOutcome.packetW ⟨Kind.receivePacket, 100⟩ ≠ WOutcome.errW Error.shuttingDown
    ∧ WOutcome.spinW ≠ WOutcome.errW Error.shuttingDown := by
  refine ⟨rfl, rfl, ?_, ?_⟩ <;> decide

/-- C1 (amended). After `shutdown()` has succeeded the shutdown event stays
set, and a `receive_blocking` call whose polls find the queue empty and whose
dual wait does not see the read-ready event signaled returns `ShuttingDown`
immediately, with no fuel consumed — this is the fail-fast path and it holds
on every subsequent call. (When the read-ready event is also signaled the
wait reports it instead, as it has the smaller index, and the loop re-polls;
see the counterexample.) -/
theorem receive_blocking_shutdown_only_signal (debug : Bool) (fuel : Nat)
    (w : World) (hq : w.queue = []) (hr : w.readSignal = false)
    (hs : w.shutdownSignal = true) :
    worldRun debug fuel w = WOutcome.errW Error.shuttingDown := by
  obtain ⟨q, rs, ss⟩ := w
  simp only at hq hr hs
  subst hq; subst hr; subst hs
  have hb := worldBurst_empty_queue debug false true 5
  unfold worldRun
  rw [hb]
  simp [waitTwo, WAIT_OBJECT_0, WAIT_OBJECT_1]

/-- Witness for the amended C1: a concrete world with the shutdown event set,
the read event unset and an empty queue fails fast even with zero fuel. -/
theorem receive_blocking_shutdown_only_signal_witness :
    worldRun true 0 ⟨[], false, true⟩ = WOutcome.errW Error.shuttingDown :=
  receive_blocking_shutdown_only_signal true 0 ⟨[], false, true⟩ rfl rfl rfl

end WintunProof
